import Mathlib

/-!
Shallow embedding of the CitySaver sensor API (`server.py`): the in-memory
rolling sensor store and its query/aggregation operations.

Modelling conventions:
- Python `float` fields are modelled as `ℚ`; comparisons and the arithmetic the
  endpoints perform (sums, divisions, `round(x, 2)`) are exact on the modelled values.
- `received_at` stamps are supplied as explicit `String` arguments (the server takes
  them from the wall clock); the store treats them as opaque ISO-8601 strings and
  compares them with Python string comparison, i.e. lexicographically by code point,
  which is what `String`'s order does.
- `str.strip()` is modelled over the ASCII whitespace characters Python strips;
  `str.lower()` as ASCII lowering (the sentinel comparisons only involve ASCII).
- The endpoint `data_timespan_hours` field of `/stats` needs wall-clock timestamp
  parsing and is not part of any verified property; it is omitted from the record.
- `save_data`'s file write is external I/O; where a claim talks about persistence the
  file is modelled as an `Option (List SensorDataResponse)` component of the state.
-/

namespace CitySaver

/-- Error taxonomy raised by the store operations (HTTP layer errors named per spec). -/
inductive Err where
  | InvalidInput
  | NotFound
  | NoValidDevices
  | InvalidRange
deriving DecidableEq, Repr

/-- From `Models/server.py`: the inbound `SensorData` payload. -/
structure SensorData where
  device_id : String
  timestamp : Int
  distance_cm : ℚ
  distance_inch : ℚ
  temperature_c : ℚ
  humidity_percent : ℚ
  latitude : ℚ
  longitude : ℚ
  gps_valid : Bool
  gps_raw : String
  gps_status : String
deriving DecidableEq, Repr

/-- From `Models/server.py`: `SensorDataResponse` — a stored reading: the payload plus the
server-assigned `received_at` stamp. -/
structure SensorDataResponse extends SensorData where
  received_at : String
deriving DecidableEq, Repr

/-- The ASCII whitespace characters Python's `str.strip()` removes. -/
def isPySpace (c : Char) : Bool :=
  c = ' ' || c = '\t' || c = '\n' || c = '\r' || c = '\x0b' || c = '\x0c'

/-- Python `str.strip()`: drop whitespace from both ends of the string. -/
def pyStrip (s : String) : String :=
  String.mk (((s.toList.dropWhile isPySpace).reverse.dropWhile isPySpace).reverse)

/-- Python `str.lower()` (ASCII lowering, character by character). -/
def pyLower (s : String) : String := String.mk (s.toList.map Char.toLower)

/-- Lexicographic code-point comparison of character lists: exactly how Python
compares two strings with `<` / `>`. -/
def ltChars : List Char → List Char → Bool
  | [], [] => false
  | [], _ :: _ => true
  | _ :: _, [] => false
  | a :: as, b :: bs => if a < b then true else if b < a then false else ltChars as bs

/-- Python string comparison `a < b`. -/
def pyLt (a b : String) : Bool := ltChars a.toList b.toList

/-- server.py line 223: sentinel strings marking a device id invalid. -/
def invalidSentinels : List String := ["null", "none", "undefined"]

/-- Validity of an already-stripped device id: the negation of
`not device_id or device_id.lower() in ['null', 'none', 'undefined']`. -/
def validKey (d : String) : Bool :=
  !(d == "" || invalidSentinels.contains (pyLower d))

/-- server.py line 138. -/
def MAX_RECORDS : Nat := 1000

/-- Payload of a successful POST /data response (`records_stored`, normalized id). -/
structure IngestData where
  records_stored : Nat
  device_id : String
deriving DecidableEq, Repr

/-- server.py 219-253, `receive_sensor_data`: validate the (stripped) device id, stamp
`received_at`, append, truncate to the most recent `MAX_RECORDS`
(`sensor_data[-MAX_RECORDS:]`), and run `save_data` when `len(sensor_data) % 10 == 0`.
Returns the new store, whether `save_data` ran, and the response. -/
def receive_sensor_data (data : SensorData) (now : String)
    (store : List SensorDataResponse) :
    List SensorDataResponse × Bool × Except Err IngestData :=
  let device_id := pyStrip data.device_id
  if validKey device_id then
    let response_data : SensorDataResponse := { toSensorData := data, received_at := now }
    let s1 := store ++ [response_data]
    let s2 := if MAX_RECORDS < s1.length then s1.drop (s1.length - MAX_RECORDS) else s1
    (s2, s2.length % 10 == 0, .ok ⟨s2.length, device_id⟩)
  else
    (store, false, .error .InvalidInput)

/-- Server state including the persisted snapshot file `sensor_data.json`
(`none` when the file is absent). -/
structure ServerState where
  sensor_data : List SensorDataResponse
  data_file : Option (List SensorDataResponse)
deriving DecidableEq, Repr

/-- server.py 156-164, `save_data`: attempt to write the snapshot; any exception is
caught and logged, leaving the file as it was. `ok` abstracts write success. -/
def save_data (ok : Bool) (st : ServerState) : ServerState :=
  if ok then { st with data_file := some st.sensor_data } else st

/-- The full POST /data handler over `ServerState`: `receive_sensor_data` plus the
conditional `save_data` call with write outcome `persistOk`. -/
def receive_sensor_data_full (persistOk : Bool) (data : SensorData) (now : String)
    (st : ServerState) : ServerState × Except Err IngestData :=
  let r := receive_sensor_data data now st.sensor_data
  let st1 : ServerState := { st with sensor_data := r.1 }
  (if r.2.1 then save_data persistOk st1 else st1, r.2.2)

/-- Folding POST /data over a list of (payload, stamp) pairs, as a request sequence. -/
def ingestSeq (inputs : List (SensorData × String))
    (store : List SensorDataResponse) : List SensorDataResponse :=
  inputs.foldl (fun s p => (receive_sensor_data p.1 p.2 s).1) store

/-- Response of GET /data (server.py 266-272). -/
structure AllDataResponse where
  total_records : Nat
  oldest_record : Option String
  newest_record : Option String
  data : List SensorDataResponse
deriving DecidableEq, Repr

/-- server.py 266-272, `get_all_data`: the full snapshot, oldest first, with metadata. -/
def get_all_data (store : List SensorDataResponse) : AllDataResponse :=
  { total_records := store.length
    oldest_record := store.head?.map (fun r => r.received_at)
    newest_record := store.getLast?.map (fun r => r.received_at)
    data := store }

/-- One Python-dict update step of the `device_latest` build (server.py 294-295):
insert at the end when the key is absent (dicts preserve first-insertion order),
replace in place when `item.received_at` is strictly greater than the stored one. -/
def insertLatest (d : String) (item : SensorDataResponse) :
    List (String × SensorDataResponse) → List (String × SensorDataResponse)
  | [] => [(d, item)]
  | (k, v) :: rest =>
    if k = d then
      (if pyLt v.received_at item.received_at then (k, item) else (k, v)) :: rest
    else
      (k, v) :: insertLatest d item rest

/-- The loop body of the `device_latest` build (server.py 287-295): strip the id,
skip invalid ids, otherwise perform the dict update. -/
def latestStep (acc : List (String × SensorDataResponse)) (item : SensorDataResponse) :
    List (String × SensorDataResponse) :=
  let device_id := pyStrip item.device_id
  if validKey device_id then insertLatest device_id item acc else acc

/-- server.py 286-295: the latest-per-device mapping, keyed by the stripped device id,
skipping readings whose stripped device id is invalid. -/
def device_latest (store : List SensorDataResponse) :
    List (String × SensorDataResponse) :=
  store.foldl latestStep []

/-- Dict lookup on the association-list model of a Python dict. -/
def lookupKey (d : String) : List (String × SensorDataResponse) → Option SensorDataResponse
  | [] => none
  | (k, v) :: rest => if k = d then some v else lookupKey d rest

/-- The two shapes of a GET /data/latest response (server.py 301-311). -/
inductive LatestResponse where
  | perDevice (devices : List (String × SensorDataResponse))
  | single (data : SensorDataResponse)
deriving DecidableEq, Repr

/-- server.py 279-311, `get_latest_data`: 404 `NotFound` on an empty store; with
`show_all_devices` the per-device mapping (404 `NoValidDevices` when it is empty),
otherwise the last stored reading. -/
def get_latest_data (show_all_devices : Bool) (store : List SensorDataResponse) :
    Except Err LatestResponse :=
  match store.getLast? with
  | none => .error .NotFound
  | some last =>
    if show_all_devices then
      let m := device_latest store
      if m.isEmpty then .error .NoValidDevices else .ok (.perDevice m)
    else
      .ok (.single last)

/-- server.py 317-345, `cleanup_invalid_data`: keep exactly the readings with a valid
(stripped) device id, in order (the Python loop appends survivors one by one);
return the new store and `removed_count = initial_count - len(cleaned_data)`. -/
def cleanup_invalid_data (store : List SensorDataResponse) :
    List SensorDataResponse × Nat :=
  let cleaned_data :=
    store.foldl
      (fun acc item => if validKey (pyStrip item.device_id) then acc ++ [item] else acc)
      []
  (cleaned_data, store.length - cleaned_data.length)

/-- Response of GET /data/device/device_id (server.py 357-363). -/
structure DeviceDataResponse where
  device_id : String
  total_records : Nat
  first_reading : String
  last_reading : String
  data : List SensorDataResponse
deriving DecidableEq, Repr

/-- server.py 352-363, `get_data_by_device`: exact (non-normalized) equality on the
stored `device_id`; 404 `NotFound` when nothing matches. -/
def get_data_by_device (device_id : String) (store : List SensorDataResponse) :
    Except Err DeviceDataResponse :=
  let device_data := store.filter (fun item => item.device_id == device_id)
  match device_data with
  | [] => .error .NotFound
  | hd :: tl =>
    .ok
      { device_id := device_id
        total_records := device_data.length
        first_reading := hd.received_at
        last_reading := ((hd :: tl).getLast (List.cons_ne_nil hd tl)).received_at
        data := device_data }

/-- Python `round(x, 2)`: round to 2 decimal places (ties here follow `round` on `ℚ`;
the spec accepts either tie-rounding convention). -/
def round2 (q : ℚ) : ℚ := (round (q * 100) : ℤ) / 100

/-- Response of the range-filter endpoints (server.py 379-384, 399-404). -/
structure FilterResponse where
  total_matching : Nat
  percentage_of_total : ℚ
  data : List SensorDataResponse
deriving DecidableEq, Repr

/-- Shared response assembly of the two range filters: count, percentage of the whole
store (0 when the store is empty), and the matching readings. -/
def mkFilterResponse (store filtered : List SensorDataResponse) : FilterResponse :=
  { total_matching := filtered.length
    percentage_of_total :=
      if store.isEmpty then 0
      else round2 ((filtered.length : ℚ) / (store.length : ℚ) * 100)
    data := filtered }

/-- server.py 370-384, `get_data_by_distance`: `InvalidRange` when `min_dist < 0` or
`max_dist < min_dist`; otherwise the readings with
`min_dist <= distance_cm <= max_dist`. -/
def get_data_by_distance (min_dist max_dist : ℚ) (store : List SensorDataResponse) :
    Except Err FilterResponse :=
  if min_dist < 0 ∨ max_dist < min_dist then .error .InvalidRange
  else
    .ok (mkFilterResponse store
      (store.filter (fun item =>
        decide (min_dist ≤ item.distance_cm ∧ item.distance_cm ≤ max_dist))))

/-- server.py 390-404, `get_data_by_temperature`: `InvalidRange` when
`max_temp < min_temp`; otherwise the readings with
`min_temp <= temperature_c <= max_temp and temperature_c > -100`. -/
def get_data_by_temperature (min_temp max_temp : ℚ) (store : List SensorDataResponse) :
    Except Err FilterResponse :=
  if max_temp < min_temp then .error .InvalidRange
  else
    .ok (mkFilterResponse store
      (store.filter (fun item =>
        decide (min_temp ≤ item.temperature_c ∧ item.temperature_c ≤ max_temp ∧
          -100 < item.temperature_c))))

/-- Minimum of a list of rationals, Python `min` style (0 on [], never used there). -/
def listMin : List ℚ → ℚ
  | [] => 0
  | x :: rest => rest.foldl min x

/-- Maximum of a list of rationals, Python `max` style (0 on [], never used there). -/
def listMax : List ℚ → ℚ
  | [] => 0
  | x :: rest => rest.foldl max x

/-- One per-metric sub-report of GET /stats (server.py 430-452). -/
structure MetricStats where
  min_val : ℚ
  max_val : ℚ
  average : ℚ
  valid_readings : Nat
deriving DecidableEq, Repr

/-- Computes `round(min(xs), 2)`, `round(max(xs), 2)`, `round(sum(xs)/len(xs), 2)`, `len(xs)`. -/
def mkMetricStats (xs : List ℚ) : MetricStats :=
  { min_val := round2 (listMin xs)
    max_val := round2 (listMax xs)
    average := round2 (xs.sum / (xs.length : ℚ))
    valid_readings := xs.length }

/-- Response of GET /stats (server.py 419-454); `data_timespan_hours` (wall-clock
parsing) is outside the modelled scope. -/
structure StatsResponse where
  total_records : Nat
  latest_reading : String
  gps_fix_rate_percent : ℚ
  unique_devices : Nat
  temperature : Option MetricStats
  humidity : Option MetricStats
  distance : Option MetricStats
deriving DecidableEq, Repr

/-- server.py 410-454, `get_statistics`: 404 `NotFound` on an empty store; otherwise
summary plus the per-metric sub-reports, each present only when its list of valid
readings (`temperature_c > -100`, `humidity_percent > -100`, `distance_cm > 0`) is
non-empty. -/
def get_statistics (store : List SensorDataResponse) : Except Err StatsResponse :=
  match store.getLast? with
  | none => .error .NotFound
  | some last =>
    let valid_temp_data :=
      (store.filter (fun item => decide (-100 < item.temperature_c))).map
        (fun item => item.temperature_c)
    let valid_humidity_data :=
      (store.filter (fun item => decide (-100 < item.humidity_percent))).map
        (fun item => item.humidity_percent)
    let distance_data :=
      (store.filter (fun item => decide (0 < item.distance_cm))).map
        (fun item => item.distance_cm)
    .ok
      { total_records := store.length
        latest_reading := last.received_at
        gps_fix_rate_percent :=
          round2 (((store.filter (fun item => item.gps_valid)).length : ℚ) /
            (store.length : ℚ) * 100)
        unique_devices := (store.map (fun item => item.device_id)).toFinset.card
        temperature :=
          if valid_temp_data.isEmpty then none else some (mkMetricStats valid_temp_data)
        humidity :=
          if valid_humidity_data.isEmpty then none
          else some (mkMetricStats valid_humidity_data)
        distance :=
          if distance_data.isEmpty then none else some (mkMetricStats distance_data) }

/-- server.py 502-520, `clear_all_data`: clear memory, delete the snapshot file,
report the prior count. -/
def clear_all_data (st : ServerState) : ServerState × Nat :=
  ({ sensor_data := [], data_file := none }, st.sensor_data.length)

/-! Spec-side characterizations (phrased from the specification's words, to be
related to the embedded operations by the claim theorems). -/

/-- The stored readings whose stripped device id equals `d`, in store order. -/
def readingsFor (d : String) (store : List SensorDataResponse) :
    List SensorDataResponse :=
  store.filter (fun item => pyStrip item.device_id == d)

/-- The greatest `received_at` in a list of readings (strings compare as Python's). -/
def maxReceived : List SensorDataResponse → String
  | [] => ""
  | r :: rest =>
    if pyLt (maxReceived rest) r.received_at then r.received_at else maxReceived rest

/-- The reading the spec promises for device `d`: among the readings whose stripped id
is `d`, the first one attaining the greatest `received_at` (first-seen wins on ties). -/
def specLatest (d : String) (store : List SensorDataResponse) :
    Option SensorDataResponse :=
  (readingsFor d store).find?
    (fun r => r.received_at == maxReceived (readingsFor d store))

/-- Single-device dict-update step: replace the candidate only when the new reading's
`received_at` is strictly greater. -/
def combine1 (o : Option SensorDataResponse) (r : SensorDataResponse) :
    Option SensorDataResponse :=
  match o with
  | none => some r
  | some v => if pyLt v.received_at r.received_at then some r else some v

/-- Scalar version of the dict-update fold restricted to a single device. -/
def latest1 (o : Option SensorDataResponse) (l : List SensorDataResponse) :
    Option SensorDataResponse :=
  l.foldl combine1 o

/-! Helper lemmas. -/

theorem validKey_false_iff (d : String) :
    validKey d = false ↔ d = "" ∨ pyLower d ∈ invalidSentinels := by
  simp only [validKey, Bool.not_eq_false', Bool.or_eq_true, beq_iff_eq,
    List.contains, List.elem_iff]

theorem validKey_true_iff (d : String) :
    validKey d = true ↔ ¬(d = "" ∨ pyLower d ∈ invalidSentinels) := by
  simp [validKey, List.contains, List.elem_iff, not_or]

theorem length_sub_filter (p : SensorDataResponse → Bool) :
    ∀ l : List SensorDataResponse,
      l.length - (l.filter p).length = l.countP (fun a => !p a)
  | [] => by simp
  | x :: rest => by
    have hle := List.length_filter_le p rest
    have ih := length_sub_filter p rest
    by_cases h : p x = true
    · rw [List.filter_cons_of_pos h, List.countP_cons_of_neg _ _ (by simp [h])]
      simp only [List.length_cons]
      omega
    · rw [List.filter_cons_of_neg (by simpa using h),
        List.countP_cons_of_pos _ _ (by simp [h])]
      simp only [List.length_cons]
      omega

theorem foldl_filter_append (p : SensorDataResponse → Bool) :
    ∀ (l acc : List SensorDataResponse),
      l.foldl (fun acc x => if p x then acc ++ [x] else acc) acc = acc ++ l.filter p
  | [], acc => by simp
  | x :: rest, acc => by
    by_cases h : p x = true
    · simp only [List.foldl_cons, h, if_pos, List.filter_cons_of_pos h,
        foldl_filter_append p rest]
      simp
    · simp only [List.foldl_cons, h, List.filter_cons_of_neg (by simpa using h),
        foldl_filter_append p rest]
      simp [h]

/-- Claim C5: `Ingest` fails with `InvalidInput` exactly when the trimmed device id is
empty or case-insensitively one of "null"/"none"/"undefined", and on every such
failure the store is left unchanged. -/
theorem claim_c5 (data : SensorData) (now : String) (store : List SensorDataResponse) :
    ((receive_sensor_data data now store).2.2 = .error .InvalidInput ↔
      (pyStrip data.device_id = "" ∨ pyLower (pyStrip data.device_id) ∈ invalidSentinels)) ∧
    ((receive_sensor_data data now store).2.2 = .error .InvalidInput →
      (receive_sensor_data data now store).1 = store) := by
  by_cases h : validKey (pyStrip data.device_id) = true
  · have hiff := (validKey_true_iff (pyStrip data.device_id)).mp h
    simp [receive_sensor_data, h, hiff]
  · have hf : validKey (pyStrip data.device_id) = false := by
      cases hv : validKey (pyStrip data.device_id)
      · rfl
      · exact absurd hv h
    have hiff := (validKey_false_iff (pyStrip data.device_id)).mp hf
    simp [receive_sensor_data, hf, hiff]

/-- Claim C5 witness: ingesting device id "NULL" fails and leaves a store unchanged. -/
theorem claim_c5_witness :
    (receive_sensor_data
      { device_id := "NULL", timestamp := 0, distance_cm := 1, distance_inch := 1,
        temperature_c := 20, humidity_percent := 50, latitude := 0, longitude := 0,
        gps_valid := true, gps_raw := "", gps_status := "ok" } "2024-01-01T00:00:00" []).1
      = [] :=
  (claim_c5 _ "2024-01-01T00:00:00" []).2
    ((claim_c5 _ "2024-01-01T00:00:00" []).1.mpr (Or.inr (by decide)))

/-- Claim C7: `CleanupInvalid` removes exactly the readings whose trimmed device id is
empty or case-insensitively a sentinel (keeping the rest, in order, as a filter does),
returns the number removed, and a second consecutive call removes 0 records. -/
theorem claim_c7 (store : List SensorDataResponse) :
    (cleanup_invalid_data store).1 =
      store.filter
        (fun r => decide (¬(pyStrip r.device_id = "" ∨
          pyLower (pyStrip r.device_id) ∈ invalidSentinels))) ∧
    (cleanup_invalid_data store).2 =
      store.countP
        (fun r => decide (pyStrip r.device_id = "" ∨
          pyLower (pyStrip r.device_id) ∈ invalidSentinels)) ∧
    cleanup_invalid_data (cleanup_invalid_data store).1 = ((cleanup_invalid_data store).1, 0) := by
  have hpred : ∀ r : SensorDataResponse,
      validKey (pyStrip r.device_id) =
        decide (¬(pyStrip r.device_id = "" ∨
          pyLower (pyStrip r.device_id) ∈ invalidSentinels)) := by
    intro r
    by_cases h : pyStrip r.device_id = "" ∨ pyLower (pyStrip r.device_id) ∈ invalidSentinels
    · simp [h, (validKey_false_iff _).mpr h]
    · simp [h, (validKey_true_iff _).mpr h]
  have hfold : (cleanup_invalid_data store).1 =
      store.filter (fun r => validKey (pyStrip r.device_id)) := by
    simpa using foldl_filter_append (fun r => validKey (pyStrip r.device_id)) store []
  refine ⟨?_, ?_, ?_⟩
  · rw [hfold]
    exact List.filter_congr (fun r _ => hpred r)
  · have hlen : (cleanup_invalid_data store).2 =
        store.length - (cleanup_invalid_data store).1.length := rfl
    rw [hlen, hfold, length_sub_filter]
    refine List.countP_congr (fun r _ => ?_)
    by_cases h : pyStrip r.device_id = "" ∨
        pyLower (pyStrip r.device_id) ∈ invalidSentinels
    · simp [h, (validKey_false_iff _).mpr h]
    · simp [h, (validKey_true_iff _).mpr h]
  · have hfold2 : (cleanup_invalid_data (cleanup_invalid_data store).1).1 =
        (cleanup_invalid_data store).1.filter (fun r => validKey (pyStrip r.device_id)) := by
      simpa using foldl_filter_append
        (fun r => validKey (pyStrip r.device_id)) (cleanup_invalid_data store).1 []
    have hidem : (cleanup_invalid_data store).1.filter
        (fun r => validKey (pyStrip r.device_id)) = (cleanup_invalid_data store).1 := by
      rw [hfold, List.filter_filter]
      simp
    have h1 : (cleanup_invalid_data (cleanup_invalid_data store).1).1 =
        (cleanup_invalid_data store).1 := by rw [hfold2, hidem]
    have h2 : (cleanup_invalid_data (cleanup_invalid_data store).1).2 = 0 := by
      have hlen2 : (cleanup_invalid_data (cleanup_invalid_data store).1).2 =
          (cleanup_invalid_data store).1.length -
            (cleanup_invalid_data (cleanup_invalid_data store).1).1.length := rfl
      rw [hlen2, h1, Nat.sub_self]
    calc cleanup_invalid_data (cleanup_invalid_data store).1
        = ((cleanup_invalid_data (cleanup_invalid_data store).1).1,
           (cleanup_invalid_data (cleanup_invalid_data store).1).2) := rfl
      _ = ((cleanup_invalid_data store).1, 0) := by rw [h1, h2]

/-- Claim C10: `ClearAll` empties the sequence and returns the prior count; afterwards
`GetAll` returns an empty sequence and `Statistics` fails with `NotFound`. -/
theorem claim_c10 (st : ServerState) :
    (clear_all_data st).1.sensor_data = [] ∧
    (clear_all_data st).2 = st.sensor_data.length ∧
    (get_all_data (clear_all_data st).1.sensor_data).data = [] ∧
    (get_all_data (clear_all_data st).1.sensor_data).total_records = 0 ∧
    get_statistics (clear_all_data st).1.sensor_data = .error .NotFound := by
  refine ⟨rfl, rfl, rfl, rfl, rfl⟩

/-- Claim C8: the distance filter fails with `InvalidRange` exactly when `min < 0` or
`max < min` and otherwise returns the readings with `min ≤ distance_cm ≤ max`
(no sentinel exclusion); the temperature filter fails exactly when `max < min` and
otherwise returns the readings with `min ≤ temperature_c ≤ max` and
`temperature_c > -100`. -/
theorem claim_c8 (min_d max_d min_t max_t : ℚ) (store : List SensorDataResponse) :
    (get_data_by_distance min_d max_d store = .error .InvalidRange ↔
      min_d < 0 ∨ max_d < min_d) ∧
    (∀ res, get_data_by_distance min_d max_d store = .ok res →
      ∀ r, r ∈ res.data ↔
        r ∈ store ∧ min_d ≤ r.distance_cm ∧ r.distance_cm ≤ max_d) ∧
    (get_data_by_temperature min_t max_t store = .error .InvalidRange ↔
      max_t < min_t) ∧
    (∀ res, get_data_by_temperature min_t max_t store = .ok res →
      ∀ r, r ∈ res.data ↔
        r ∈ store ∧ min_t ≤ r.temperature_c ∧ r.temperature_c ≤ max_t ∧
          -100 < r.temperature_c) := by
  refine ⟨?_, ?_, ?_, ?_⟩
  · by_cases h : min_d < 0 ∨ max_d < min_d <;> simp [get_data_by_distance, h]
  · intro res hres r
    by_cases h : min_d < 0 ∨ max_d < min_d
    · simp [get_data_by_distance, h] at hres
    · simp only [get_data_by_distance, h, if_neg, not_false_iff, Except.ok.injEq] at hres
      subst hres
      simp [mkFilterResponse, List.mem_filter, and_assoc]
  · by_cases h : max_t < min_t <;> simp [get_data_by_temperature, h]
  · intro res hres r
    by_cases h : max_t < min_t
    · simp [get_data_by_temperature, h] at hres
    · simp only [get_data_by_temperature, h, if_neg, not_false_iff, Except.ok.injEq] at hres
      subst hres
      simp [mkFilterResponse, List.mem_filter, and_assoc]

/-- Claim C8 witness: a distance query with min 10 and max 5 is an invalid range, and a
valid temperature query returns exactly the in-range non-sentinel readings. -/
theorem claim_c8_witness :
    get_data_by_distance 10 5 [] = .error .InvalidRange ∧
    (10 < 0 ∨ (5 : ℚ) < 10) :=
  ⟨(claim_c8 10 5 0 0 []).1.mpr (Or.inr (by norm_num)), Or.inr (by norm_num)⟩

/-- A sample payload used by concrete witnesses (only `device_id` varies). -/
def samplePayload (id : String) : SensorData :=
  { device_id := id, timestamp := 0, distance_cm := 5, distance_inch := 2,
    temperature_c := 20, humidity_percent := 50, latitude := 0, longitude := 0,
    gps_valid := true, gps_raw := "", gps_status := "ok" }

/-- A sample stored reading used by concrete witnesses. -/
def mkReading (id recv : String) (t h d : ℚ) (g : Bool) : SensorDataResponse :=
  { device_id := id, timestamp := 0, distance_cm := d, distance_inch := 0,
    temperature_c := t, humidity_percent := h, latitude := 0, longitude := 0,
    gps_valid := g, gps_raw := "", gps_status := "", received_at := recv }

/-- Claim C4: a successful `Ingest` returns the trimmed device id but stores the
reading with its original untrimmed id, and `FilterByDevice` uses exact string
equality (`NotFound` when nothing matches); hence for an id with surrounding
whitespace, filtering on the normalized id returned by `Ingest` never matches the
stored reading. -/
theorem claim_c4 (data : SensorData) (now : String) (store : List SensorDataResponse)
    (hvalid : validKey (pyStrip data.device_id) = true)
    (hws : pyStrip data.device_id ≠ data.device_id) :
    (receive_sensor_data data now store).2.2 =
      .ok ⟨(receive_sensor_data data now store).1.length, pyStrip data.device_id⟩ ∧
    (receive_sensor_data data now store).1.getLast? =
      some { toSensorData := data, received_at := now } ∧
    ({ toSensorData := data, received_at := now } : SensorDataResponse).device_id =
      data.device_id ∧
    (∀ q s, get_data_by_device q s = .error .NotFound ↔ ∀ r ∈ s, r.device_id ≠ q) ∧
    (∀ res, get_data_by_device (pyStrip data.device_id)
        (receive_sensor_data data now store).1 = .ok res →
      ({ toSensorData := data, received_at := now } : SensorDataResponse) ∉ res.data) := by
  refine ⟨?_, ?_, rfl, ?_, ?_⟩
  · simp [receive_sensor_data, hvalid]
  · by_cases hlen :
      MAX_RECORDS < (store ++ [({ toSensorData := data, received_at := now } :
        SensorDataResponse)]).length
    · have hdrop : (store ++ [({ toSensorData := data, received_at := now } :
          SensorDataResponse)]).length - MAX_RECORDS ≤ store.length := by
        simp only [List.length_append, List.length_singleton] at hlen ⊢
        have : 1 ≤ MAX_RECORDS := by norm_num [MAX_RECORDS]
        omega
      simp only [receive_sensor_data, hvalid, if_pos, if_true, hlen]
      rw [List.drop_append_of_le_length hdrop, List.getLast?_concat]
    · simp only [receive_sensor_data, hvalid, if_pos, if_true, hlen, if_false]
      rw [List.getLast?_concat]
  · intro q s
    cases hf : s.filter (fun item => item.device_id == q) with
    | nil =>
      simp only [get_data_by_device, hf]
      simp only [List.filter_eq_nil_iff, beq_iff_eq] at hf
      simpa using hf
    | cons hd tl =>
      simp only [get_data_by_device, hf]
      have hhd : hd ∈ s.filter (fun item => item.device_id == q) := by
        rw [hf]; exact List.mem_cons_self hd tl
      rw [List.mem_filter] at hhd
      constructor
      · intro hcontra; cases hcontra
      · intro hall
        exact absurd (by simpa using hhd.2) (hall hd hhd.1)
  · intro res hres hmem
    cases hf : (receive_sensor_data data now store).1.filter
        (fun item => item.device_id == pyStrip data.device_id) with
    | nil => simp [get_data_by_device, hf] at hres
    | cons hd tl =>
      simp only [get_data_by_device, hf, Except.ok.injEq] at hres
      subst hres
      have : ({ toSensorData := data, received_at := now } : SensorDataResponse) ∈
          (receive_sensor_data data now store).1.filter
            (fun item => item.device_id == pyStrip data.device_id) := by
        rw [hf]; exact hmem
      rw [List.mem_filter] at this
      have heq : ({ toSensorData := data, received_at := now } :
          SensorDataResponse).device_id = pyStrip data.device_id := by
        simpa using this.2
      exact hws heq.symm

/-- Claim C4 witness: ingesting device id " A " returns normalized id "A", stores the
reading under " A ", and a device query for "A" does not return it. -/
theorem claim_c4_witness :
    (receive_sensor_data (samplePayload " A ") "2024-01-01T00:00:00" []).2.2 =
      .ok ⟨1, "A"⟩ := by
  have hvalid : validKey (pyStrip (samplePayload " A ").device_id) = true := by decide
  have hws : pyStrip (samplePayload " A ").device_id ≠ (samplePayload " A ").device_id := by
    decide
  have h := (claim_c4 (samplePayload " A ") "2024-01-01T00:00:00" [] hvalid hws).1
  rw [h]
  rfl

/-- Claim C3: the flush runs on a successful `Ingest` exactly when the post-append,
post-truncation length satisfies `len % 10 == 0`, never on a failed one; the stored
sequence and response are independent of whether the flush write succeeds; a
successful flush persists the entire current sequence, and no flush means the
persisted file is untouched. -/
theorem claim_c3 (persistOk persistOk' : Bool) (data : SensorData) (now : String)
    (st : ServerState) :
    (∀ d, (receive_sensor_data data now st.sensor_data).2.2 = .ok d →
      ((receive_sensor_data data now st.sensor_data).2.1 = true ↔
        (receive_sensor_data data now st.sensor_data).1.length % 10 = 0)) ∧
    ((receive_sensor_data data now st.sensor_data).2.2 = .error .InvalidInput →
      (receive_sensor_data data now st.sensor_data).2.1 = false) ∧
    ((receive_sensor_data_full persistOk data now st).2 =
      (receive_sensor_data_full persistOk' data now st).2) ∧
    ((receive_sensor_data_full persistOk data now st).1.sensor_data =
      (receive_sensor_data_full persistOk' data now st).1.sensor_data) ∧
    ((receive_sensor_data data now st.sensor_data).2.1 = true →
      (receive_sensor_data_full true data now st).1.data_file =
        some (receive_sensor_data data now st.sensor_data).1) ∧
    ((receive_sensor_data data now st.sensor_data).2.1 = false →
      (receive_sensor_data_full persistOk data now st).1.data_file = st.data_file) := by
  by_cases hv : validKey (pyStrip data.device_id) = true
  · refine ⟨?_, ?_, ?_, ?_, ?_, ?_⟩
    · intro d _
      simp [receive_sensor_data, hv]
    · intro hcontra
      simp [receive_sensor_data, hv] at hcontra
    · simp [receive_sensor_data_full]
    · simp only [receive_sensor_data_full, save_data]
      by_cases hf : (receive_sensor_data data now st.sensor_data).2.1 = true <;>
        by_cases hp : persistOk = true <;> by_cases hp' : persistOk' = true <;>
        simp [hf, hp, hp']
    · intro hf
      simp [receive_sensor_data_full, save_data, hf]
    · intro hf
      simp [receive_sensor_data_full, save_data, hf]
  · have hv' : validKey (pyStrip data.device_id) = false := by
      cases h : validKey (pyStrip data.device_id)
      · rfl
      · exact absurd h hv
    refine ⟨?_, ?_, ?_, ?_, ?_, ?_⟩
    · intro d hcontra
      simp [receive_sensor_data, hv'] at hcontra
    · intro _
      simp [receive_sensor_data, hv']
    · simp [receive_sensor_data_full]
    · simp only [receive_sensor_data_full, save_data]
      by_cases hf : (receive_sensor_data data now st.sensor_data).2.1 = true <;>
        by_cases hp : persistOk = true <;> by_cases hp' : persistOk' = true <;>
        simp [hf, hp, hp']
    · intro hf
      simp [receive_sensor_data_full, save_data, hf]
    · intro hf
      simp [receive_sensor_data_full, save_data, hf]

/-- Claim C3 witness: after one successful ingest into an empty server the length is 1,
no flush runs, and the snapshot file stays absent. -/
theorem claim_c3_witness :
    (receive_sensor_data_full true (samplePayload "A") "2024-01-01T00:00:00"
      ⟨[], none⟩).1.data_file = none := by
  have hflag : (receive_sensor_data (samplePayload "A") "2024-01-01T00:00:00"
      (ServerState.mk [] none).sensor_data).2.1 = false := rfl
  exact (claim_c3 true false (samplePayload "A") "2024-01-01T00:00:00"
    ⟨[], none⟩).2.2.2.2.2 hflag

/-- Claim C9: on a non-empty store the `unique_devices` field of `Statistics` counts
distinct raw `device_id` strings, with no trimming and no validity filtering. -/
theorem claim_c9 (store : List SensorDataResponse) (h : store ≠ []) :
    ∃ rep, get_statistics store = .ok rep ∧
      rep.unique_devices = (store.map (fun r => r.device_id)).dedup.length := by
  cases hlast : store.getLast? with
  | none => exact absurd (List.getLast?_eq_none_iff.mp hlast) h
  | some last =>
    cases hstat : get_statistics store with
    | error e =>
      exfalso
      unfold get_statistics at hstat
      rw [hlast] at hstat
      exact absurd hstat (by simp)
    | ok rep =>
      refine ⟨rep, rfl, ?_⟩
      unfold get_statistics at hstat
      rw [hlast] at hstat
      injection hstat with hstat
      rw [← hstat]
      exact List.card_toFinset (store.map (fun r => r.device_id))

/-- Claim C9 witness: "null", " A " and "A" count as three distinct devices. -/
theorem claim_c9_witness :
    ∃ rep,
      get_statistics
        [mkReading "null" "t1" 20 50 5 true, mkReading " A " "t2" 20 50 5 true,
          mkReading "A" "t3" 20 50 5 true] = .ok rep ∧
      rep.unique_devices = 3 := by
  obtain ⟨rep, hrep, hcount⟩ := claim_c9
    [mkReading "null" "t1" 20 50 5 true, mkReading " A " "t2" 20 50 5 true,
      mkReading "A" "t3" 20 50 5 true] (List.cons_ne_nil _ _)
  exact ⟨rep, hrep, by rw [hcount]; decide⟩

/-- Claim C1: a sequence of successful ingests from an empty store leaves exactly the
most recent `MAX_RECORDS` stamped readings, in their original relative order, so the
store never exceeds `MAX_RECORDS`. -/
theorem drop_snoc_truncate {α : Type} (S : List α) (r : α) (M : Nat)
    (hM : 1 ≤ M) (h : M ≤ S.length) :
    ((S.drop (S.length - M)).drop 1) ++ [r] = (S ++ [r]).drop (S.length + 1 - M) := by
  rw [List.drop_drop, List.drop_append_of_le_length (by omega)]
  have harith : S.length - M + 1 = S.length + 1 - M := by omega
  rw [harith]

theorem claim_c1 (inputs : List (SensorData × String))
    (hv : ∀ p ∈ inputs, validKey (pyStrip p.1.device_id) = true) :
    ingestSeq inputs [] =
      (inputs.map (fun p =>
        ({ toSensorData := p.1, received_at := p.2 } : SensorDataResponse))).drop
        (inputs.length - MAX_RECORDS) ∧
    (ingestSeq inputs []).length = min inputs.length MAX_RECORDS := by
  induction inputs using List.reverseRecOn with
  | nil => simp [ingestSeq]
  | append_singleton xs p ih =>
    have hv' : ∀ q ∈ xs, validKey (pyStrip q.1.device_id) = true := by
      intro q hq
      exact hv q (List.mem_append_left _ hq)
    have hvp : validKey (pyStrip p.1.device_id) = true :=
      hv p (List.mem_append_right _ (List.mem_singleton_self p))
    obtain ⟨ih1, ih2⟩ := ih hv'
    have hstep : ingestSeq (xs ++ [p]) [] =
        (receive_sensor_data p.1 p.2 (ingestSeq xs [])).1 := by
      simp [ingestSeq, List.foldl_append]
    have hSlen : ((xs.map (fun q =>
        ({ toSensorData := q.1, received_at := q.2 } : SensorDataResponse)))).length =
        xs.length := List.length_map _ _
    have hrecv : (receive_sensor_data p.1 p.2 (ingestSeq xs [])).1 =
        if MAX_RECORDS <
            (ingestSeq xs [] ++
              [({ toSensorData := p.1, received_at := p.2 } : SensorDataResponse)]).length
          then
          (ingestSeq xs [] ++
            [({ toSensorData := p.1, received_at := p.2 } : SensorDataResponse)]).drop
            ((ingestSeq xs [] ++
              [({ toSensorData := p.1, received_at := p.2 } :
                SensorDataResponse)]).length - MAX_RECORDS)
        else ingestSeq xs [] ++
          [({ toSensorData := p.1, received_at := p.2 } : SensorDataResponse)] := by
      simp [receive_sensor_data, hvp]
    have hmapsnoc : (xs ++ [p]).map (fun q =>
        ({ toSensorData := q.1, received_at := q.2 } : SensorDataResponse)) =
        xs.map (fun q =>
          ({ toSensorData := q.1, received_at := q.2 } : SensorDataResponse)) ++
        [({ toSensorData := p.1, received_at := p.2 } : SensorDataResponse)] := by
      simp
    by_cases hn : xs.length < MAX_RECORDS
    · have hprev : ingestSeq xs [] =
          xs.map (fun q =>
            ({ toSensorData := q.1, received_at := q.2 } : SensorDataResponse)) := by
        rw [ih1, Nat.sub_eq_zero_of_le (Nat.le_of_lt hn), List.drop_zero]
      have hlen1 : (ingestSeq xs [] ++
          [({ toSensorData := p.1, received_at := p.2 } :
            SensorDataResponse)]).length = xs.length + 1 := by
        rw [List.length_append, hprev, hSlen]
        rfl
      have hnotlt : ¬ MAX_RECORDS < (ingestSeq xs [] ++
          [({ toSensorData := p.1, received_at := p.2 } :
            SensorDataResponse)]).length := by
        rw [hlen1]; omega
      have hdz : (xs ++ [p]).length - MAX_RECORDS = 0 := by
        rw [List.length_append]
        simp only [List.length_singleton]
        omega
      constructor
      · rw [hstep, hrecv, if_neg hnotlt, hprev, hmapsnoc, hdz, List.drop_zero]
      · rw [hstep, hrecv, if_neg hnotlt, hlen1, List.length_append]
        simp only [List.length_singleton]
        exact (min_eq_left (by omega)).symm
    · have hM : MAX_RECORDS ≤ xs.length := Nat.le_of_not_lt hn
      have hprevlen : (ingestSeq xs []).length = MAX_RECORDS := by
        rw [ih2]; exact min_eq_right hM
      have hlen1 : (ingestSeq xs [] ++
          [({ toSensorData := p.1, received_at := p.2 } :
            SensorDataResponse)]).length = MAX_RECORDS + 1 := by
        rw [List.length_append, hprevlen]
        rfl
      have hlt : MAX_RECORDS < (ingestSeq xs [] ++
          [({ toSensorData := p.1, received_at := p.2 } :
            SensorDataResponse)]).length := by
        rw [hlen1]; omega
      have hd1 : (ingestSeq xs [] ++
          [({ toSensorData := p.1, received_at := p.2 } :
            SensorDataResponse)]).length - MAX_RECORDS = 1 := by
        rw [hlen1]; omega
      have hidx : (xs ++ [p]).length - MAX_RECORDS =
          (xs.map (fun q =>
            ({ toSensorData := q.1, received_at := q.2 } :
              SensorDataResponse))).length + 1 - MAX_RECORDS := by
        rw [List.length_append, hSlen]
        rfl
      have ih1' : ingestSeq xs [] =
          (xs.map (fun q =>
            ({ toSensorData := q.1, received_at := q.2 } : SensorDataResponse))).drop
            ((xs.map (fun q =>
              ({ toSensorData := q.1, received_at := q.2 } :
                SensorDataResponse))).length - MAX_RECORDS) := by
        rw [ih1, hSlen]
      constructor
      · rw [hstep, hrecv, if_pos hlt, hd1,
          List.drop_append_of_le_length
            (show (1 : Nat) ≤ (ingestSeq xs []).length by
              rw [hprevlen]; norm_num [MAX_RECORDS]),
          ih1', hmapsnoc, hidx]
        exact drop_snoc_truncate _ _ _ (by norm_num [MAX_RECORDS]) (by rw [hSlen]; omega)
      · rw [hstep, hrecv, if_pos hlt, List.length_drop, hd1, hlen1, List.length_append]
        simp only [List.length_singleton]
        rw [min_eq_right (show MAX_RECORDS ≤ xs.length + 1 by omega)]
        omega

/-- Claim C1 witness: two valid ingests leave both stamped readings, in order. -/
theorem claim_c1_witness :
    (ingestSeq [(samplePayload "A", "t1"), (samplePayload "B", "t2")] []).length = 2 := by
  have h :=
    (claim_c1 [(samplePayload "A", "t1"), (samplePayload "B", "t2")] (by decide)).2
  rw [h]
  decide

/-! Fold lemmas for Python-style `min` / `max` over a list of rationals. -/

theorem foldl_min_mem : ∀ (rest : List ℚ) (acc : ℚ),
    rest.foldl min acc = acc ∨ rest.foldl min acc ∈ rest
  | [], _ => Or.inl rfl
  | y :: t, acc => by
    rcases foldl_min_mem t (min acc y) with h | h
    · rcases min_choice acc y with hc | hc
      · exact Or.inl (by rw [List.foldl_cons, h, hc])
      · refine Or.inr ?_
        rw [List.foldl_cons, h, hc]
        exact List.mem_cons_self y t
    · refine Or.inr (List.mem_cons_of_mem y ?_)
      rw [List.foldl_cons]
      exact h

theorem foldl_min_le_init : ∀ (rest : List ℚ) (acc : ℚ), rest.foldl min acc ≤ acc
  | [], acc => le_refl acc
  | y :: t, acc => by
    rw [List.foldl_cons]
    exact le_trans (foldl_min_le_init t (min acc y)) (min_le_left acc y)

theorem foldl_min_le_mem : ∀ (rest : List ℚ) (acc x : ℚ), x ∈ rest →
    rest.foldl min acc ≤ x
  | [], _, x, hx => absurd hx (List.not_mem_nil x)
  | y :: t, acc, x, hx => by
    rw [List.foldl_cons]
    rcases List.mem_cons.mp hx with rfl | hxt
    · exact le_trans (foldl_min_le_init t (min acc x)) (min_le_right acc x)
    · exact foldl_min_le_mem t (min acc y) x hxt

theorem foldl_max_mem : ∀ (rest : List ℚ) (acc : ℚ),
    rest.foldl max acc = acc ∨ rest.foldl max acc ∈ rest
  | [], _ => Or.inl rfl
  | y :: t, acc => by
    rcases foldl_max_mem t (max acc y) with h | h
    · rcases max_choice acc y with hc | hc
      · exact Or.inl (by rw [List.foldl_cons, h, hc])
      · refine Or.inr ?_
        rw [List.foldl_cons, h, hc]
        exact List.mem_cons_self y t
    · refine Or.inr (List.mem_cons_of_mem y ?_)
      rw [List.foldl_cons]
      exact h

theorem foldl_max_ge_init : ∀ (rest : List ℚ) (acc : ℚ), acc ≤ rest.foldl max acc
  | [], acc => le_refl acc
  | y :: t, acc => by
    rw [List.foldl_cons]
    exact le_trans (le_max_left acc y) (foldl_max_ge_init t (max acc y))

theorem foldl_max_ge_mem : ∀ (rest : List ℚ) (acc x : ℚ), x ∈ rest →
    x ≤ rest.foldl max acc
  | [], _, x, hx => absurd hx (List.not_mem_nil x)
  | y :: t, acc, x, hx => by
    rw [List.foldl_cons]
    rcases List.mem_cons.mp hx with rfl | hxt
    · exact le_trans (le_max_right acc x) (foldl_max_ge_init t (max acc x))
    · exact foldl_max_ge_mem t (max acc y) x hxt

theorem listMin_mem (xs : List ℚ) (h : xs ≠ []) : listMin xs ∈ xs := by
  match xs with
  | [] => exact absurd rfl h
  | x :: rest =>
    show rest.foldl min x ∈ x :: rest
    rcases foldl_min_mem rest x with h1 | h1
    · rw [h1]; exact List.mem_cons_self x rest
    · exact List.mem_cons_of_mem x h1

theorem listMin_le (xs : List ℚ) (x : ℚ) (hx : x ∈ xs) : listMin xs ≤ x := by
  match xs with
  | [] => cases hx
  | y :: rest =>
    show rest.foldl min y ≤ x
    rcases List.mem_cons.mp hx with rfl | hxt
    · exact foldl_min_le_init rest x
    · exact foldl_min_le_mem rest y x hxt

theorem listMax_mem (xs : List ℚ) (h : xs ≠ []) : listMax xs ∈ xs := by
  match xs with
  | [] => exact absurd rfl h
  | x :: rest =>
    show rest.foldl max x ∈ x :: rest
    rcases foldl_max_mem rest x with h1 | h1
    · rw [h1]; exact List.mem_cons_self x rest
    · exact List.mem_cons_of_mem x h1

theorem listMax_ge (xs : List ℚ) (x : ℚ) (hx : x ∈ xs) : x ≤ listMax xs := by
  match xs with
  | [] => cases hx
  | y :: rest =>
    show x ≤ rest.foldl max y
    rcases List.mem_cons.mp hx with rfl | hxt
    · exact foldl_max_ge_init rest x
    · exact foldl_max_ge_mem rest y x hxt

/-- What the spec promises of one per-metric sub-report over the valid values `xs`:
present exactly when `xs` is non-empty, and then reporting the count, the rounded
average, and rounded extrema of exactly `xs`. -/
def metricSpec (o : Option MetricStats) (xs : List ℚ) : Prop :=
  (o = none ↔ xs = []) ∧
  ∀ ms, o = some ms →
    ms.valid_readings = xs.length ∧
    ms.average = round2 (xs.sum / (xs.length : ℚ)) ∧
    (∃ m ∈ xs, (∀ x ∈ xs, m ≤ x) ∧ ms.min_val = round2 m) ∧
    (∃ m ∈ xs, (∀ x ∈ xs, x ≤ m) ∧ ms.max_val = round2 m)

theorem metricSpec_ite (xs : List ℚ) :
    metricSpec (if xs.isEmpty then none else some (mkMetricStats xs)) xs := by
  by_cases h : xs.isEmpty = true
  · have hnil : xs = [] := List.isEmpty_iff.mp h
    subst hnil
    exact ⟨by simp, fun ms hms => by simp at hms⟩
  · have hne : xs ≠ [] := by
      intro hc
      subst hc
      simp at h
    rw [if_neg h]
    refine ⟨⟨fun h1 => absurd h1 (by simp), fun h2 => absurd h2 hne⟩, ?_⟩
    intro ms hms
    injection hms with hms
    subst hms
    exact ⟨rfl, rfl,
      ⟨listMin xs, listMin_mem xs hne, fun x hx => listMin_le xs x hx, rfl⟩,
      ⟨listMax xs, listMax_mem xs hne, fun x hx => listMax_ge xs x hx, rfl⟩⟩

/-- Claim C6: on a non-empty store, each of the temperature / humidity / distance
sub-reports of `Statistics` is present exactly when at least one non-sentinel value
exists for that metric (`temperature_c > -100`, `humidity_percent > -100`,
`distance_cm > 0`), and then reports min, max, average (rounded to 2 decimals) and
count over exactly those valid values. -/
theorem claim_c6 (store : List SensorDataResponse) (h : store ≠ []) :
    ∃ rep, get_statistics store = .ok rep ∧
      metricSpec rep.temperature
        ((store.filter (fun r => decide (-100 < r.temperature_c))).map
          (fun r => r.temperature_c)) ∧
      metricSpec rep.humidity
        ((store.filter (fun r => decide (-100 < r.humidity_percent))).map
          (fun r => r.humidity_percent)) ∧
      metricSpec rep.distance
        ((store.filter (fun r => decide (0 < r.distance_cm))).map
          (fun r => r.distance_cm)) := by
  cases hlast : store.getLast? with
  | none => exact absurd (List.getLast?_eq_none_iff.mp hlast) h
  | some last =>
    cases hstat : get_statistics store with
    | error e =>
      exfalso
      unfold get_statistics at hstat
      rw [hlast] at hstat
      exact absurd hstat (by simp)
    | ok rep =>
      unfold get_statistics at hstat
      rw [hlast] at hstat
      injection hstat with hstat
      refine ⟨rep, rfl, ?_, ?_, ?_⟩ <;>
      · rw [← hstat]
        exact metricSpec_ite _

/-- Claim C6 witness: on temperatures [-999, 20, 30] the temperature sub-report is
present, with average 25 over exactly the 2 non-sentinel readings. -/
theorem claim_c6_witness :
    ∃ rep,
      get_statistics
        [mkReading "A" "t1" (-999) 50 5 true, mkReading "A" "t2" 20 50 5 true,
          mkReading "A" "t3" 30 50 5 true] = .ok rep ∧
      rep.temperature ≠ none ∧
      ∀ ms, rep.temperature = some ms → ms.valid_readings = 2 ∧ ms.average = 25 := by
  obtain ⟨rep, hrep, htemp, _hhum, _hdist⟩ := claim_c6
    [mkReading "A" "t1" (-999) 50 5 true, mkReading "A" "t2" 20 50 5 true,
      mkReading "A" "t3" 30 50 5 true] (List.cons_ne_nil _ _)
  refine ⟨rep, hrep, ?_, ?_⟩
  · intro hn
    have hxs := htemp.1.mp hn
    norm_num [mkReading] at hxs
    exact (List.cons_ne_nil _ _) hxs
  · intro ms hms
    obtain ⟨hcount, havg, _, _⟩ := htemp.2 ms hms
    constructor
    · rw [hcount]
      norm_num [mkReading]
    · rw [havg]
      norm_num [mkReading, round2, round_eq]

/-! Order lemmas for the Python string comparison. -/

theorem ltChars_irrefl : ∀ l : List Char, ltChars l l = false
  | [] => rfl
  | c :: t => by
    simp only [ltChars, lt_irrefl c, if_false]
    exact ltChars_irrefl t

theorem ltChars_trans : ∀ a b c : List Char,
    ltChars a b = true → ltChars b c = true → ltChars a c = true
  | [], [], _, hab, _ => by simp [ltChars] at hab
  | [], _ :: _, [], _, hbc => by simp [ltChars] at hbc
  | [], _ :: _, _ :: _, _, _ => by simp [ltChars]
  | _ :: _, [], _, hab, _ => by simp [ltChars] at hab
  | _ :: _, _ :: _, [], _, hbc => by simp [ltChars] at hbc
  | x :: xs, y :: ys, z :: zs, hab, hbc => by
    simp only [ltChars] at hab hbc ⊢
    by_cases hxy : x < y
    · by_cases hyz : y < z
      · rw [if_pos (lt_trans hxy hyz)]
      · rw [if_neg hyz] at hbc
        by_cases hzy : z < y
        · rw [if_pos hzy] at hbc; cases hbc
        · have hyzeq : y = z := le_antisymm (le_of_not_lt hzy) (le_of_not_lt hyz)
          subst hyzeq
          rw [if_pos hxy]
    · rw [if_neg hxy] at hab
      by_cases hyx : y < x
      · rw [if_pos hyx] at hab; cases hab
      · rw [if_neg hyx] at hab
        have hxyeq : x = y := le_antisymm (le_of_not_lt hyx) (le_of_not_lt hxy)
        subst hxyeq
        by_cases hxz : x < z
        · rw [if_pos hxz]
        · rw [if_neg hxz] at hbc ⊢
          by_cases hzx : z < x
          · rw [if_pos hzx] at hbc; cases hbc
          · rw [if_neg hzx] at hbc ⊢
            exact ltChars_trans xs ys zs hab hbc

theorem ltChars_eq_of_not : ∀ a b : List Char,
    ltChars a b = false → ltChars b a = false → a = b
  | [], [], _, _ => rfl
  | [], _ :: _, hab, _ => by simp [ltChars] at hab
  | _ :: _, [], _, hba => by simp [ltChars] at hba
  | x :: xs, y :: ys, hab, hba => by
    simp only [ltChars] at hab hba
    by_cases hxy : x < y
    · rw [if_pos hxy] at hab; cases hab
    · by_cases hyx : y < x
      · rw [if_pos hyx] at hba; cases hba
      · rw [if_neg hxy, if_neg hyx] at hab
        rw [if_neg hyx, if_neg hxy] at hba
        have hxyeq : x = y := le_antisymm (le_of_not_lt hyx) (le_of_not_lt hxy)
        have ht := ltChars_eq_of_not xs ys hab hba
        rw [hxyeq, ht]

theorem pyLt_irrefl (s : String) : pyLt s s = false := ltChars_irrefl s.toList

theorem pyLt_trans {a b c : String} (h1 : pyLt a b = true) (h2 : pyLt b c = true) :
    pyLt a c = true :=
  ltChars_trans _ _ _ h1 h2

theorem pyLt_eq_of_not {a b : String} (h1 : pyLt a b = false) (h2 : pyLt b a = false) :
    a = b := by
  cases a with
  | mk la =>
    cases b with
    | mk lb => exact congrArg String.mk (ltChars_eq_of_not la lb h1 h2)

theorem pyLt_empty {s : String} (h : pyLt "" s = false) : s = "" := by
  cases s with
  | mk l =>
    cases l with
    | nil => rfl
    | cons c cs => simp [pyLt, String.toList, ltChars] at h

/-! Association-list lemmas about the `device_latest` fold. -/

theorem lookupKey_insert_eq : ∀ (acc : List (String × SensorDataResponse))
    (d : String) (r : SensorDataResponse),
    lookupKey d (insertLatest d r acc) = combine1 (lookupKey d acc) r
  | [], d, r => by simp [insertLatest, lookupKey, combine1]
  | (k, v) :: rest, d, r => by
    by_cases hk : k = d
    · subst hk
      by_cases hlt : pyLt v.received_at r.received_at = true
      · have hins : insertLatest k r ((k, v) :: rest) = (k, r) :: rest := by
          simp [insertLatest, hlt]
        rw [hins]
        simp [lookupKey, combine1, hlt]
      · have hins : insertLatest k r ((k, v) :: rest) = (k, v) :: rest := by
          simp [insertLatest, hlt]
        rw [hins]
        simp [lookupKey, combine1, hlt]
    · have hins : insertLatest d r ((k, v) :: rest) = (k, v) :: insertLatest d r rest := by
        simp [insertLatest, hk]
      rw [hins]
      simp only [lookupKey, if_neg hk]
      exact lookupKey_insert_eq rest d r

theorem lookupKey_insert_ne : ∀ (acc : List (String × SensorDataResponse))
    (d k : String) (r : SensorDataResponse), k ≠ d →
    lookupKey d (insertLatest k r acc) = lookupKey d acc
  | [], d, k, r, hne => by simp [insertLatest, lookupKey, hne]
  | (k', v) :: rest, d, k, r, hne => by
    by_cases hk : k' = k
    · subst hk
      by_cases hlt : pyLt v.received_at r.received_at = true
      · have hins : insertLatest k' r ((k', v) :: rest) = (k', r) :: rest := by
          simp [insertLatest, hlt]
        rw [hins]
        simp [lookupKey, hne]
      · have hins : insertLatest k' r ((k', v) :: rest) = (k', v) :: rest := by
          simp [insertLatest, hlt]
        rw [hins]
    · have hins : insertLatest k r ((k', v) :: rest) = (k', v) :: insertLatest k r rest := by
        simp [insertLatest, hk]
      rw [hins]
      simp only [lookupKey]
      by_cases hd : k' = d
      · simp [hd]
      · simp only [if_neg hd]
        exact lookupKey_insert_ne rest d k r hne

theorem latest1_cons (o : Option SensorDataResponse) (x : SensorDataResponse)
    (l : List SensorDataResponse) : latest1 o (x :: l) = latest1 (combine1 o x) l := by
  simp [latest1]

theorem lookup_device_latest_fold : ∀ (l : List SensorDataResponse)
    (acc : List (String × SensorDataResponse)) (d : String),
    lookupKey d (l.foldl latestStep acc) =
      latest1 (lookupKey d acc)
        (l.filter (fun r => validKey (pyStrip r.device_id) && (pyStrip r.device_id == d)))
  | [], acc, d => by simp [latest1]
  | item :: t, acc, d => by
    rw [List.foldl_cons]
    by_cases hval : validKey (pyStrip item.device_id) = true
    · have hstep : latestStep acc item = insertLatest (pyStrip item.device_id) item acc := by
        simp [latestStep, hval]
      by_cases hd : pyStrip item.device_id = d
      · have hfpos : (item :: t).filter
            (fun r => validKey (pyStrip r.device_id) && (pyStrip r.device_id == d)) =
            item :: t.filter
              (fun r => validKey (pyStrip r.device_id) && (pyStrip r.device_id == d)) :=
          List.filter_cons_of_pos (by rw [hd] at hval; simp [hval, hd])
        rw [hstep, hd, hfpos, lookup_device_latest_fold t _ d, lookupKey_insert_eq,
          latest1_cons]
      · have hfneg : (item :: t).filter
            (fun r => validKey (pyStrip r.device_id) && (pyStrip r.device_id == d)) =
            t.filter
              (fun r => validKey (pyStrip r.device_id) && (pyStrip r.device_id == d)) :=
          List.filter_cons_of_neg (by simp [hd])
        rw [hstep, hfneg, lookup_device_latest_fold t _ d,
          lookupKey_insert_ne _ _ _ _ hd]
    · have hval' : validKey (pyStrip item.device_id) = false := by
        cases h : validKey (pyStrip item.device_id)
        · rfl
        · exact absurd h hval
      have hstep : latestStep acc item = acc := by simp [latestStep, hval']
      have hfneg : (item :: t).filter
          (fun r => validKey (pyStrip r.device_id) && (pyStrip r.device_id == d)) =
          t.filter
            (fun r => validKey (pyStrip r.device_id) && (pyStrip r.device_id == d)) :=
        List.filter_cons_of_neg (by simp [hval'])
      rw [hstep, hfneg]
      exact lookup_device_latest_fold t acc d

theorem insertLatest_ne_nil (d : String) (r : SensorDataResponse) :
    ∀ acc, insertLatest d r acc ≠ []
  | [] => by simp [insertLatest]
  | (k, v) :: rest => by
    by_cases hk : k = d <;> simp [insertLatest, hk]

theorem foldl_latestStep_nil : ∀ (l : List SensorDataResponse)
    (acc : List (String × SensorDataResponse)),
    l.foldl latestStep acc = [] ↔
      acc = [] ∧ ∀ r ∈ l, validKey (pyStrip r.device_id) = false
  | [], acc => by simp
  | item :: t, acc => by
    rw [List.foldl_cons]
    by_cases hval : validKey (pyStrip item.device_id) = true
    · have hstep : latestStep acc item = insertLatest (pyStrip item.device_id) item acc := by
        simp [latestStep, hval]
      rw [hstep, foldl_latestStep_nil t _]
      constructor
      · rintro ⟨hnil, -⟩
        exact absurd hnil (insertLatest_ne_nil _ _ _)
      · rintro ⟨-, hall⟩
        have := hall item (List.mem_cons_self item t)
        rw [hval] at this
        cases this
    · have hval' : validKey (pyStrip item.device_id) = false := by
        cases h : validKey (pyStrip item.device_id)
        · rfl
        · exact absurd h hval
      have hstep : latestStep acc item = acc := by simp [latestStep, hval']
      rw [hstep, foldl_latestStep_nil t acc]
      constructor
      · rintro ⟨hacc, hall⟩
        refine ⟨hacc, fun r hr => ?_⟩
        rcases List.mem_cons.mp hr with rfl | hrt
        · exact hval'
        · exact hall r hrt
      · rintro ⟨hacc, hall⟩
        exact ⟨hacc, fun r hr => hall r (List.mem_cons_of_mem item hr)⟩

theorem maxReceived_head_not_lt (r : SensorDataResponse) (t : List SensorDataResponse) :
    pyLt (maxReceived (r :: t)) r.received_at = false := by
  have hunfold : maxReceived (r :: t) =
      if pyLt (maxReceived t) r.received_at then r.received_at else maxReceived t := rfl
  rw [hunfold]
  cases hm : pyLt (maxReceived t) r.received_at with
  | true => simp [pyLt_irrefl]
  | false => simpa using hm

theorem latest1_some_eq_find : ∀ (t : List SensorDataResponse) (v : SensorDataResponse),
    latest1 (some v) t =
      (v :: t).find? (fun r => r.received_at == maxReceived (v :: t))
  | [], v => by
    simp only [latest1, List.foldl_nil]
    have hshow : maxReceived [v] =
        if pyLt "" v.received_at then v.received_at else "" := rfl
    by_cases hb : pyLt "" v.received_at = true
    · have hM : maxReceived [v] = v.received_at := by rw [hshow, if_pos hb]
      rw [hM]
      simp
    · have hb' : pyLt "" v.received_at = false := by
        cases h : pyLt "" v.received_at
        · rfl
        · exact absurd h hb
      have hemp : v.received_at = "" := pyLt_empty hb'
      have hM : maxReceived [v] = v.received_at := by
        rw [hshow, if_neg (by simp [hb']), hemp]
      rw [hM]
      simp
  | a :: t', v => by
    rw [latest1_cons]
    have hcombine : combine1 (some v) a =
        if pyLt v.received_at a.received_at then some a else some v := rfl
    by_cases hva : pyLt v.received_at a.received_at = true
    · rw [hcombine, if_pos hva, latest1_some_eq_find t' a]
      have hhead := maxReceived_head_not_lt a t'
      have hnotlt : pyLt (maxReceived (a :: t')) v.received_at = false := by
        cases hc : pyLt (maxReceived (a :: t')) v.received_at
        · rfl
        · exact absurd (pyLt_trans hc hva) (by rw [hhead]; simp)
      have hM : maxReceived (v :: a :: t') = maxReceived (a :: t') := by
        show (if pyLt (maxReceived (a :: t')) v.received_at then v.received_at
          else maxReceived (a :: t')) = maxReceived (a :: t')
        rw [if_neg (by simp [hnotlt])]
      rw [hM]
      have hpv : (v.received_at == maxReceived (a :: t')) = false := by
        cases hc : v.received_at == maxReceived (a :: t')
        · rfl
        · exfalso
          have heq : v.received_at = maxReceived (a :: t') := eq_of_beq hc
          rw [← heq] at hhead
          rw [hva] at hhead
          cases hhead
      exact (List.find?_cons_of_neg _ (by simp [hpv])).symm
    · have hva' : pyLt v.received_at a.received_at = false := by
        cases h : pyLt v.received_at a.received_at
        · rfl
        · exact absurd h hva
      rw [hcombine, if_neg (by simp [hva']), latest1_some_eq_find t' v]
      have hM : maxReceived (v :: a :: t') = maxReceived (v :: t') := by
        have hu1 : maxReceived (v :: a :: t') =
            if pyLt (maxReceived (a :: t')) v.received_at then v.received_at
            else maxReceived (a :: t') := rfl
        have hu2 : maxReceived (a :: t') =
            if pyLt (maxReceived t') a.received_at then a.received_at
            else maxReceived t' := rfl
        have hu3 : maxReceived (v :: t') =
            if pyLt (maxReceived t') v.received_at then v.received_at
            else maxReceived t' := rfl
        cases hma : pyLt (maxReceived t') a.received_at with
        | true =>
          have h2 : maxReceived (a :: t') = a.received_at := by rw [hu2, if_pos hma]
          cases hav : pyLt a.received_at v.received_at with
          | true =>
            have h1 : maxReceived (v :: a :: t') = v.received_at := by
              rw [hu1, h2, if_pos hav]
            have h3 : maxReceived (v :: t') = v.received_at := by
              rw [hu3, if_pos (pyLt_trans hma hav)]
            rw [h1, h3]
          | false =>
            have heq : a.received_at = v.received_at := pyLt_eq_of_not hav hva'
            have h1 : maxReceived (v :: a :: t') = a.received_at := by
              rw [hu1, h2, if_neg (by simp [hav])]
            have h3 : maxReceived (v :: t') = v.received_at := by
              rw [hu3, if_pos (show pyLt (maxReceived t') v.received_at = true from
                heq ▸ hma)]
            rw [h1, h3, heq]
        | false =>
          have h2 : maxReceived (a :: t') = maxReceived t' := by
            rw [hu2, if_neg (by simp [hma])]
          rw [hu1, h2, hu3]
      rw [hM]
      cases hpv : (v.received_at == maxReceived (v :: t')) with
      | true =>
        calc (v :: t').find? (fun r => r.received_at == maxReceived (v :: t'))
            = some v := List.find?_cons_of_pos _ (by simp [hpv])
          _ = (v :: a :: t').find? (fun r => r.received_at == maxReceived (v :: t')) :=
            (List.find?_cons_of_pos _ (by simp [hpv])).symm
      | false =>
        have hpa : (a.received_at == maxReceived (v :: t')) = false := by
          cases hc : a.received_at == maxReceived (v :: t')
          · rfl
          · exfalso
            have heqa : a.received_at = maxReceived (v :: t') := eq_of_beq hc
            have hneq : v.received_at ≠ maxReceived (v :: t') := by
              intro hcontra
              rw [← hcontra] at hpv
              simp at hpv
            have hhead : pyLt (maxReceived (v :: t')) v.received_at = false :=
              maxReceived_head_not_lt v t'
            have hlt : pyLt v.received_at (maxReceived (v :: t')) = true := by
              cases hc2 : pyLt v.received_at (maxReceived (v :: t'))
              · exact absurd (pyLt_eq_of_not hc2 hhead) hneq
              · rfl
            rw [← heqa] at hlt
            rw [hva'] at hlt
            cases hlt
        calc (v :: t').find? (fun r => r.received_at == maxReceived (v :: t'))
            = t'.find? (fun r => r.received_at == maxReceived (v :: t')) :=
              List.find?_cons_of_neg _ (by simp [hpv])
          _ = (a :: t').find? (fun r => r.received_at == maxReceived (v :: t')) :=
              (List.find?_cons_of_neg _ (by simp [hpa])).symm
          _ = (v :: a :: t').find? (fun r => r.received_at == maxReceived (v :: t')) :=
              (List.find?_cons_of_neg _ (by simp [hpv])).symm

theorem latest1_none_eq_find (rs : List SensorDataResponse) :
    latest1 none rs = rs.find? (fun r => r.received_at == maxReceived rs) := by
  cases rs with
  | nil => rfl
  | cons a t =>
    have hstep : latest1 none (a :: t) = latest1 (some a) t := by
      rw [latest1_cons]
      rfl
    rw [hstep, latest1_some_eq_find t a]

theorem filter_contributes_eq (store : List SensorDataResponse) (d : String)
    (hd : validKey d = true) :
    store.filter (fun r => validKey (pyStrip r.device_id) && (pyStrip r.device_id == d)) =
      readingsFor d store := by
  unfold readingsFor
  refine List.filter_congr (fun r _ => ?_)
  by_cases h : pyStrip r.device_id = d
  · rw [h, hd]
    simp
  · simp [h]

/-- Claim C2: `GetLatestPerDevice` fails with `NotFound` exactly on the empty store and
with `NoValidDevices` exactly when the store is non-empty but every reading's stripped
device id is invalid; on success, the entry for each valid device id `d` is the first
reading among those whose stripped id equals `d` attaining the greatest `received_at`
(a later reading wins only under strict greater-than), and no invalid id has an
entry. -/
theorem claim_c2 (store : List SensorDataResponse) :
    (get_latest_data true store = .error .NotFound ↔ store = []) ∧
    (get_latest_data true store = .error .NoValidDevices ↔
      store ≠ [] ∧ ∀ r ∈ store, validKey (pyStrip r.device_id) = false) ∧
    (∀ m, get_latest_data true store = .ok (.perDevice m) →
      ∀ d, lookupKey d m =
        if validKey d = true then specLatest d store else none) := by
  cases hlast : store.getLast? with
  | none =>
    have hnil : store = [] := List.getLast?_eq_none_iff.mp hlast
    subst hnil
    refine ⟨?_, ?_, ?_⟩
    · simp [get_latest_data]
    · simp [get_latest_data]
    · intro m hm
      simp [get_latest_data] at hm
  | some last =>
    have hne : store ≠ [] := by
      intro hc
      subst hc
      simp at hlast
    have hform : get_latest_data true store =
        if (device_latest store).isEmpty then .error .NoValidDevices
        else .ok (.perDevice (device_latest store)) := by
      unfold get_latest_data
      rw [hlast]
      rfl
    refine ⟨?_, ?_, ?_⟩
    · rw [hform]
      by_cases hemp : (device_latest store).isEmpty = true
      · simp [hemp, hne]
      · simp [hemp, hne]
    · rw [hform]
      by_cases hemp : (device_latest store).isEmpty = true
      · rw [if_pos hemp]
        have hdl : device_latest store = [] := List.isEmpty_iff.mp hemp
        constructor
        · intro _
          refine ⟨hne, ?_⟩
          have h2 := (foldl_latestStep_nil store []).mp hdl
          exact h2.2
        · intro _
          rfl
      · rw [if_neg hemp]
        have hdl : device_latest store ≠ [] := by
          intro hc
          exact hemp (by rw [show device_latest store = [] from hc]; rfl)
        constructor
        · intro hcontra
          cases hcontra
        · rintro ⟨-, hall⟩
          exact absurd ((foldl_latestStep_nil store []).mpr ⟨rfl, hall⟩) hdl
    · intro m hm d
      rw [hform] at hm
      by_cases hemp : (device_latest store).isEmpty = true
      · rw [if_pos hemp] at hm
        cases hm
      · rw [if_neg hemp] at hm
        have hmeq : device_latest store = m := by
          injection hm with hm
          injection hm with hm
        subst hmeq
        have hfold := lookup_device_latest_fold store [] d
        rw [show lookupKey d ([] : List (String × SensorDataResponse)) = none from rfl]
          at hfold
        show lookupKey d (store.foldl latestStep []) = _
        by_cases hd : validKey d = true
        · rw [if_pos hd, hfold, filter_contributes_eq store d hd, latest1_none_eq_find]
          rfl
        · rw [if_neg hd, hfold]
          have hd' : validKey d = false := by
            cases h : validKey d
            · rfl
            · exact absurd h hd
          have hempty : store.filter
              (fun r => validKey (pyStrip r.device_id) && (pyStrip r.device_id == d)) =
              [] := by
            rw [List.filter_eq_nil_iff]
            intro r hr
            by_cases hsd : pyStrip r.device_id = d
            · simp [hsd, hd']
            · simp [hsd]
          rw [hempty]
          rfl

/-- Claim C2 witness: on readings A at "t1", B at "t2", A at "t3" (with "t3" greater),
the per-device map holds A's "t3" reading, which is what the spec formula picks. -/
theorem claim_c2_witness :
    lookupKey "A"
      [("A", mkReading "A" "t3" 20 50 5 true), ("B", mkReading "B" "t2" 20 50 5 true)] =
      some (mkReading "A" "t3" 20 50 5 true) := by
  have hok : get_latest_data true
      [mkReading "A" "t1" 20 50 5 true, mkReading "B" "t2" 20 50 5 true,
        mkReading "A" "t3" 20 50 5 true] =
      .ok (.perDevice
        [("A", mkReading "A" "t3" 20 50 5 true),
          ("B", mkReading "B" "t2" 20 50 5 true)]) := rfl
  have h := (claim_c2
    [mkReading "A" "t1" 20 50 5 true, mkReading "B" "t2" 20 50 5 true,
      mkReading "A" "t3" 20 50 5 true]).2.2
    [("A", mkReading "A" "t3" 20 50 5 true), ("B", mkReading "B" "t2" 20 50 5 true)]
    hok "A"
  rw [h]
  rfl

end CitySaver
